import Mathlib

/-!
Shallow embedding of the kiosk work-session tracker in
`src/app/kiosk2/KioskClient.tsx` (the authoritative variant; `src/unnamed/part_000`
is an earlier copy of the same component without the visual scanner).

Conventions of the embedding:
* JavaScript timestamps (`Date.now()`, milliseconds) are `Int`; the clock reading
  of an event-handler turn is passed in as an explicit `now : Int` parameter.
* JavaScript numbers used for the rate computation are `ℚ` (the computation only
  ever divides; no NaN/Infinity exists in this model, mirroring the guarded code).
* React `useState`/`useRef` cells become fields of `KioskState`; each event
  handler becomes a pure function `KioskState → KioskState`.
* The browser's pool of live `MediaStream`s is modelled by the `openStreams`
  ledger: `getUserMedia` appends a fresh handle, `track.stop()` (performed only
  by `stopScanner` on the stream currently held in `streamRef`) removes it.
  `nextHandle` is the fresh-handle generator.
-/

/-- Operator identity as returned by `demoLookupOperator` (KioskClient.tsx:38-44). -/
structure Operator where
  id : String
  name : String
deriving DecidableEq

/-- Work-order record (KioskClient.tsx:7-15). -/
structure WorkOrder where
  id : String
  wo : String
  model : String
  operation : String
  color : String
  size : String
  target_pph : Nat
deriving DecidableEq

/-- Downtime reason (KioskClient.tsx:5). -/
inductive DowntimeReason where
  | «break»
  | fault
deriving DecidableEq

/-- The session phase variant `SessionState` (KioskClient.tsx:17-30). -/
inductive SessionState where
  | idle
  | authenticated (operatorId operatorName : String)
  | running (operatorId operatorName : String) (wo : WorkOrder) (startTs : Int) (produced : Nat)
  | paused (operatorId operatorName : String) (wo : WorkOrder) (startTs : Int) (produced : Nat)
      (reason : DowntimeReason) (pauseTs : Int)
deriving DecidableEq

def SessionState.isRunning : SessionState → Bool
  | .running _ _ _ _ _ => true
  | _ => false

def SessionState.isPaused : SessionState → Bool
  | .paused _ _ _ _ _ _ _ => true
  | _ => false

def SessionState.isAuthenticated : SessionState → Bool
  | .authenticated _ _ => true
  | _ => false

/-- The produced count carried by a `running`/`paused` phase, if any. -/
def producedOf : SessionState → Option Nat
  | .running _ _ _ _ produced => some produced
  | .paused _ _ _ _ produced _ _ => some produced
  | _ => none

/-- The demo work-order catalog (KioskClient.tsx:32-36). -/
def demoWorkOrders : List WorkOrder :=
  [ { id := ("1"), wo := ("WO-1001"), model := ("LACOSTE POLO"), operation := ("Dikiş"),
      color := ("Lacivert"), size := ("M"), target_pph := 45 },
    { id := ("2"), wo := ("WO-1002"), model := ("LACOSTE TSHIRT"), operation := ("Overlok"),
      color := ("Beyaz"), size := ("L"), target_pph := 60 },
    { id := ("3"), wo := ("WO-1003"), model := ("LACOSTE SWEAT"), operation := ("Reçme"),
      color := ("Siyah"), size := ("S"), target_pph := 35 } ]

/-- JavaScript `String.prototype.trim`: strip leading and trailing whitespace.
Modelled over the character list so that it evaluates in the kernel. -/
def jsTrim (s : String) : String :=
  String.mk (((s.data.dropWhile Char.isWhitespace).reverse.dropWhile Char.isWhitespace).reverse)

/-- JavaScript `String.prototype.toLowerCase`, character-wise lowering. -/
def jsToLower (s : String) : String := String.mk (s.data.map Char.toLower)

/-- `demoLookupOperator` (KioskClient.tsx:38-44).  `if (!cleaned) return null`
means the empty trimmed string yields no identity; any other code resolves. -/
def demoLookupOperator (rfid : String) : Option Operator :=
  let cleaned := jsTrim rfid
  if cleaned = "" then none
  else if cleaned = "000000001" ∨ jsToLower cleaned = "ahmet" then
    some { id := ("op-1"), name := ("Ahmet") }
  else if cleaned = "000000002" ∨ jsToLower cleaned = "lider" then
    some { id := ("op-2"), name := ("Lider") }
  else
    some { id := ("op-x"), name := ("Operatör (") ++ cleaned ++ (")") }

/-- `pad2` (KioskClient.tsx:46-48): `padStart(2, '0')` on a nonnegative integer
prepends one zero exactly when the decimal representation has one digit. -/
def pad2 (n : Nat) : String :=
  if n < 10 then ("0") ++ toString n else toString n

/-- The local `s` of `formatHMS` (KioskClient.tsx:51):
`Math.max(0, Math.floor(ms / 1000))`.  For the positive divisor 1000,
JavaScript's real division followed by `Math.floor` is Euclidean division. -/
def hmsSeconds (ms : Int) : Nat := (max 0 (ms / 1000)).toNat

/-- `formatHMS` (KioskClient.tsx:50-56). -/
def formatHMS (ms : Int) : String :=
  let s := hmsSeconds ms
  let hh := s / 3600
  let mm := (s % 3600) / 60
  let ss := s % 60
  pad2 hh ++ (":") ++ pad2 mm ++ (":") ++ pad2 ss

/-- JavaScript `Math.round`: round half toward positive infinity. -/
def jsRound (q : ℚ) : Int := ⌊q + 1 / 2⌋


/-!  ## The kiosk component state

React state cells and refs of `KioskClient` (KioskClient.tsx:59-74), restricted
to those the core logic reads or writes.  `streamRef`, `rafRef`, `scanOpen` and
`scanError` make up the scanner resource state; `openStreams` is the ledger of
camera streams acquired from the browser whose tracks have not been stopped,
and `nextHandle` generates fresh stream handles. -/

structure ScannerState where
  rafPending : Bool
  stream : Option Nat
  openStreams : List Nat
  scanOpen : Bool
  scanError : Option String
  nextHandle : Nat
deriving DecidableEq

/-- Scanner refs at component mount: no frame scheduled, no stream, modal closed. -/
def scannerInit : ScannerState :=
  { rafPending := false, stream := none, openStreams := [], scanOpen := false,
    scanError := none, nextHandle := 0 }

/-- `stopScanner` (KioskClient.tsx:76-86): cancel the pending animation frame,
stop the tracks of the stream held in `streamRef` (and only that stream),
null the ref, close the modal. -/
def ScannerState.stop (sc : ScannerState) : ScannerState :=
  { sc with
    rafPending := false,
    openStreams := match sc.stream with
      | some h => sc.openStreams.erase h
      | none => sc.openStreams,
    stream := none,
    scanOpen := false }

/-- Environment facts probed by `openScanner`: whether `navigator.mediaDevices`
with `getUserMedia` exists, whether the camera permission/acquisition succeeds,
whether the `<video>` element is mounted, and whether `window.BarcodeDetector`
is available. -/
structure ScanEnv where
  hasMediaDevices : Bool
  cameraOk : Bool
  videoPresent : Bool
  hasDetector : Bool
deriving DecidableEq

/-- Whole-component state: the `rfidBuffer`, `selectedWO` and `state` cells
(KioskClient.tsx:59-61) plus the scanner resource state. -/
structure KioskState where
  rfidBuffer : String
  selectedWO : Option WorkOrder
  state : SessionState
  scanner : ScannerState
deriving DecidableEq

/-- Component state at kiosk boot: empty buffer, no selection, `Idle`. -/
def kioskInit : KioskState :=
  { rfidBuffer := "", selectedWO := none, state := .idle, scanner := scannerInit }

/-!  ## Event handlers -/

/-- `loginWithCode` (KioskClient.tsx:88-93): look the code up, clear the buffer,
and — with no phase guard — move to `authenticated` whenever an identity resolves. -/
def loginWithCode (code : String) (k : KioskState) : KioskState :=
  match demoLookupOperator code with
  | none => { k with rfidBuffer := "" }
  | some op => { k with rfidBuffer := "", state := .authenticated op.id op.name }

/-- `onRFIDEnter` (KioskClient.tsx:202-207): same body as `loginWithCode`,
applied to the current `rfidBuffer`. -/
def onRFIDEnter (k : KioskState) : KioskState :=
  match demoLookupOperator k.rfidBuffer with
  | none => { k with rfidBuffer := "" }
  | some op => { k with rfidBuffer := "", state := .authenticated op.id op.name }

/-- `openScanner` (KioskClient.tsx:95-145) up to its first suspension of the
sampling loop.  Every throw lands in the `catch`, which only records
`scanError` — in particular a stream acquired before a later throw is *not*
stopped there.  On full success the first animation frame is scheduled. -/
def openScanner (env : ScanEnv) (k : KioskState) : KioskState :=
  let sc0 := { k.scanner with scanError := none, scanOpen := true }
  if ¬env.hasMediaDevices then
    { k with scanner := { sc0 with scanError := some (("Kamera erişimi desteklenmiyor.")) } }
  else if ¬env.cameraOk then
    { k with scanner := { sc0 with scanError := some (("getUserMedia hatası")) } }
  else
    let h := sc0.nextHandle
    let sc1 := { sc0 with stream := some h, openStreams := sc0.openStreams ++ [h],
                          nextHandle := h + 1 }
    if ¬env.videoPresent then
      { k with scanner := { sc1 with scanError := some (("Video elementi bulunamadı.")) } }
    else if ¬env.hasDetector then
      { k with scanner :=
          { sc1 with scanError := some (("BarcodeDetector desteklenmiyor. (Android Chrome güncel olmalı)")) } }
    else
      { k with scanner := { sc1 with rafPending := true } }

/-- One turn of the sampling `loop` (KioskClient.tsx:124-139).  `detected` is
the raw value of the first barcode when `detector.detect` returned a non-empty
list, `none` when it returned nothing or threw (the catch swallows the error).
A non-empty trimmed value stops the scanner and then feeds `loginWithCode`;
otherwise the next frame is scheduled. -/
def scanLoopStep (detected : Option String) (k : KioskState) : KioskState :=
  match detected with
  | some rawValue =>
    let raw := jsTrim rawValue
    if raw = "" then { k with scanner := { k.scanner with rafPending := true } }
    else loginWithCode raw { k with scanner := k.scanner.stop }
  | none => { k with scanner := { k.scanner with rafPending := true } }

/-- `resetToIdle` (KioskClient.tsx:195-200): stop the scanner, clear the
selection and the buffer, return to `idle`. -/
def resetToIdle (k : KioskState) : KioskState :=
  { k with scanner := k.scanner.stop, selectedWO := none, rfidBuffer := "",
           state := .idle }

/-- `startWork` (KioskClient.tsx:209-220): guard on a selected order, then on
the `authenticated` phase; start running at `now` with zero produced. -/
def startWork (now : Int) (k : KioskState) : KioskState :=
  match k.selectedWO with
  | none => k
  | some wo =>
    match k.state with
    | .authenticated opId opName =>
      { k with state := .running opId opName wo now 0 }
    | _ => k

/-- `pause` (KioskClient.tsx:222-234): only from `running`; keep `startTs` and
`produced`, record the reason and `pauseTs = now`. -/
def pause (reason : DowntimeReason) (now : Int) (k : KioskState) : KioskState :=
  match k.state with
  | .running opId opName wo startTs produced =>
    { k with state := .paused opId opName wo startTs produced reason now }
  | _ => k

/-- `resume` (KioskClient.tsx:236-247): only from `paused`; shift `startTs`
forward by the paused duration `now − pauseTs`, keep `produced`. -/
def resume (now : Int) (k : KioskState) : KioskState :=
  match k.state with
  | .paused opId opName wo startTs produced _ pauseTs =>
    { k with state := .running opId opName wo (startTs + (now - pauseTs)) produced }
  | _ => k

/-- `addPiece` (KioskClient.tsx:249-253): only from `running`; spread the state
and bump `produced` by one. -/
def addPiece (k : KioskState) : KioskState :=
  match k.state with
  | .running opId opName wo startTs produced =>
    { k with state := .running opId opName wo startTs (produced + 1) }
  | _ => k

/-- `runningInfo` (KioskClient.tsx:184-193): elapsed milliseconds against the
effective start (`pauseTs` is the end time when paused, the clock otherwise)
and the pieces-per-hour rate, guarded to 0 unless `hours > 0`. -/
def runningInfo (now : Int) (st : SessionState) : Int × ℚ :=
  match st with
  | .running _ _ _ startTs produced =>
    let elapsed := now - startTs
    let hours : ℚ := (elapsed : ℚ) / 3600000
    (elapsed, if 0 < hours then (produced : ℚ) / hours else 0)
  | .paused _ _ _ startTs produced _ pauseTs =>
    let elapsed := pauseTs - startTs
    let hours : ℚ := (elapsed : ℚ) / 3600000
    (elapsed, if 0 < hours then (produced : ℚ) / hours else 0)
  | _ => (0, 0)

/-- The final snapshot surfaced by `finishWork`'s alert (KioskClient.tsx:262-266):
operator name, work-order code, produced count, the computed elapsed
milliseconds with their `HH:MM:SS` rendering, and the rate with its rounding. -/
structure FinishSummary where
  opName : String
  woCode : String
  produced : Nat
  elapsedMs : Int
  elapsedHMS : String
  pph : ℚ
  pphRounded : Int
deriving DecidableEq

/-- `finishWork` (KioskClient.tsx:255-268): legal from `running` or `paused`;
compute the summary (end time `pauseTs` when paused, the clock otherwise; rate
as `runningInfo` reports it at the same instant), then `resetToIdle`. -/
def finishWork (now : Int) (k : KioskState) : Option FinishSummary × KioskState :=
  match k.state with
  | .running _ opName wo startTs produced =>
    let elapsedMs := now - startTs
    let pph := (runningInfo now k.state).2
    (some { opName := opName, woCode := wo.wo, produced := produced,
            elapsedMs := elapsedMs, elapsedHMS := formatHMS elapsedMs,
            pph := pph, pphRounded := jsRound pph },
     resetToIdle k)
  | .paused _ opName wo startTs produced _ pauseTs =>
    let elapsedMs := pauseTs - startTs
    let pph := (runningInfo now k.state).2
    (some { opName := opName, woCode := wo.wo, produced := produced,
            elapsedMs := elapsedMs, elapsedHMS := formatHMS elapsedMs,
            pph := pph, pphRounded := jsRound pph },
     resetToIdle k)
  | _ => (none, k)

/-!  ## Event alphabet and step function

All ways the component's handlers can be invoked, for trace-level properties.
`selectWO` carries the UI gating of the work-order buttons
(`disabled={!canPickWO}` with `canPickWO = state.phase === 'authenticated'`,
KioskClient.tsx:270,406). -/

inductive KioskEvent where
  | setBuffer (s : String)
  | rfidEnter
  | openScan (env : ScanEnv)
  | scanFrame (detected : Option String)
  | stopScan
  | selectWO (w : WorkOrder)
  | start (now : Int)
  | piece
  | pauseEv (reason : DowntimeReason) (now : Int)
  | resumeEv (now : Int)
  | finishEv (now : Int)
  | resetEv
deriving DecidableEq

def step : KioskEvent → KioskState → KioskState
  | .setBuffer s, k => { k with rfidBuffer := s }
  | .rfidEnter, k => onRFIDEnter k
  | .openScan env, k => openScanner env k
  | .scanFrame d, k => scanLoopStep d k
  | .stopScan, k => { k with scanner := k.scanner.stop }
  | .selectWO w, k =>
      if k.state.isAuthenticated then { k with selectedWO := some w } else k
  | .start now, k => startWork now k
  | .piece, k => addPiece k
  | .pauseEv r now, k => pause r now k
  | .resumeEv now, k => resume now k
  | .finishEv now, k => (finishWork now k).2
  | .resetEv, k => resetToIdle k

/-- One pause/resume cycle at the given pair of instants, folded over a list of
cycles: `pause('break')` at the first component, `resume()` at the second. -/
def applyCycles (cs : List (Int × Int)) (k : KioskState) : KioskState :=
  cs.foldl (fun acc c => resume c.2 (pause .«break» c.1 acc)) k

/-- Total milliseconds spent paused over a list of pause/resume cycles. -/
def pausedTotal (cs : List (Int × Int)) : Int :=
  (cs.map fun c => c.2 - c.1).sum

/-!  ## Concrete fixtures (scenario states from spec §8, used by witnesses) -/

def wo1 : WorkOrder :=
  { id := ("1"), wo := ("WO-1001"), model := ("LACOSTE POLO"), operation := ("Dikiş"),
    color := ("Lacivert"), size := ("M"), target_pph := 45 }

/-- A running session: operator `Ahmet` on `WO-1001`, started at 0, 5 pieces,
with the code `ahmet` sitting in the keyboard buffer. -/
def kRun : KioskState :=
  { rfidBuffer := ("ahmet"), selectedWO := some wo1,
    state := .running ("op-1") ("Ahmet") wo1 0 5, scanner := scannerInit }

/-- An authenticated session with `WO-1001` selected. -/
def kAuth : KioskState :=
  { rfidBuffer := "", selectedWO := some wo1,
    state := .authenticated ("op-1") ("Ahmet"), scanner := scannerInit }

/-- A paused zero-output session: paused at the same instant it started. -/
def kPaused0 : KioskState :=
  { rfidBuffer := "", selectedWO := some wo1,
    state := .paused ("op-1") ("Ahmet") wo1 0 0 .fault 0, scanner := scannerInit }

/-- Idle kiosk with only whitespace in the keyboard buffer. -/
def kSpaces : KioskState :=
  { rfidBuffer := ("   "), selectedWO := none, state := .idle, scanner := scannerInit }

/-- Browser environment where everything the scanner needs is available. -/
def envGood : ScanEnv :=
  { hasMediaDevices := true, cameraOk := true, videoPresent := true, hasDetector := true }

/-- Browser environment with a camera but no `BarcodeDetector` (e.g. desktop
Firefox): `getUserMedia` succeeds, then the detector check throws. -/
def envNoDetector : ScanEnv :=
  { hasMediaDevices := true, cameraOk := true, videoPresent := true, hasDetector := false }

/-!  ## Helper lemmas -/

theorem applyCycles_state (cs : List (Int × Int)) :
    ∀ (k : KioskState) (opId opName : String) (wo : WorkOrder) (s : Int) (n : Nat),
      k.state = .running opId opName wo s n →
      (applyCycles cs k).state = .running opId opName wo (s + pausedTotal cs) n := by
  induction cs with
  | nil =>
    intro k opId opName wo s n h
    simpa [applyCycles, pausedTotal] using h
  | cons c cs ih =>
    intro k opId opName wo s n h
    have h1 : (resume c.2 (pause .«break» c.1 k)).state
        = .running opId opName wo (s + (c.2 - c.1)) n := by
      simp [pause, resume, h]
    have h2 := ih _ opId opName wo _ n h1
    have h3 : s + (c.2 - c.1) + pausedTotal cs = s + pausedTotal (c :: cs) := by
      simp only [pausedTotal, List.map_cons, List.sum_cons]
      ring
    simp only [applyCycles, List.foldl_cons] at h2 ⊢
    rw [← h3]
    exact h2

theorem formatHMS_clamp (ms : Int) : formatHMS ms = formatHMS (max 0 ms) := by
  have h : hmsSeconds ms = hmsSeconds (max 0 ms) := by
    unfold hmsSeconds
    rcases le_total ms 0 with h | h
    · have h1 : ms / 1000 ≤ 0 := by omega
      rw [max_eq_left h1, max_eq_left h]
      norm_num
    · rw [max_eq_right h]
  simp only [formatHMS, h]

theorem openScanner_state (env : ScanEnv) (k : KioskState) :
    (openScanner env k).state = k.state := by
  unfold openScanner
  repeat' split
  all_goals rfl

theorem openScanner_selectedWO (env : ScanEnv) (k : KioskState) :
    (openScanner env k).selectedWO = k.selectedWO := by
  unfold openScanner
  repeat' split
  all_goals rfl

/-- Every step either leaves the produced count where it was, lands in a phase
without one, creates a fresh count 0 via `start`, or bumps it by one. -/
theorem producedOf_step (e : KioskEvent) (k : KioskState) :
    producedOf (step e k).state = producedOf k.state ∨
    producedOf (step e k).state = none ∨
    (producedOf k.state = none ∧ producedOf (step e k).state = some 0 ∧
      ∃ now, e = .start now) ∨
    (∃ p, producedOf k.state = some p ∧ producedOf (step e k).state = some (p + 1)) := by
  cases e with
  | setBuffer s => left; rfl
  | rfidEnter =>
    cases h : demoLookupOperator k.rfidBuffer with
    | none => left; simp [step, onRFIDEnter, h]
    | some op => right; left; simp [step, onRFIDEnter, h, producedOf]
  | openScan env => left; rw [show step (.openScan env) k = openScanner env k from rfl,
      openScanner_state]
  | scanFrame d =>
    cases d with
    | none => left; rfl
    | some v =>
      by_cases hv : jsTrim v = ""
      · left; simp [step, scanLoopStep, hv]
      · cases h : demoLookupOperator (jsTrim v) with
        | none => left; simp [step, scanLoopStep, hv, loginWithCode, h]
        | some op => right; left; simp [step, scanLoopStep, hv, loginWithCode, h, producedOf]
  | stopScan => left; rfl
  | selectWO w =>
    by_cases h : k.state.isAuthenticated
    · left; simp [step, h]
    · left; simp [step, h]
  | start now =>
    cases hs : k.selectedWO with
    | none => left; simp [step, startWork, hs]
    | some wo =>
      cases hk : k.state with
      | authenticated a b =>
        right; right; left
        refine ⟨by simp [hk, producedOf], ?_, now, rfl⟩
        simp [step, startWork, hs, hk, producedOf]
      | idle => left; simp [step, startWork, hs, hk]
      | running a b w s p => left; simp [step, startWork, hs, hk]
      | paused a b w s p r ts => left; simp [step, startWork, hs, hk]
  | piece =>
    cases hk : k.state with
    | running a b w s p =>
      right; right; right
      exact ⟨p, by simp [hk, producedOf], by simp [step, addPiece, hk, producedOf]⟩
    | idle => left; simp [step, addPiece, hk]
    | authenticated a b => left; simp [step, addPiece, hk]
    | paused a b w s p r ts => left; simp [step, addPiece, hk]
  | pauseEv r now =>
    cases hk : k.state with
    | running a b w s p => left; simp [step, pause, hk, producedOf]
    | idle => left; simp [step, pause, hk]
    | authenticated a b => left; simp [step, pause, hk]
    | paused a b w s p r0 ts => left; simp [step, pause, hk]
  | resumeEv now =>
    cases hk : k.state with
    | paused a b w s p r ts => left; simp [step, resume, hk, producedOf]
    | idle => left; simp [step, resume, hk]
    | authenticated a b => left; simp [step, resume, hk]
    | running a b w s p => left; simp [step, resume, hk]
  | finishEv now =>
    cases hk : k.state with
    | running a b w s p => right; left; simp [step, finishWork, hk, resetToIdle, producedOf]
    | paused a b w s p r ts => right; left; simp [step, finishWork, hk, resetToIdle, producedOf]
    | idle => left; simp [step, finishWork, hk]
    | authenticated a b => left; simp [step, finishWork, hk]
  | resetEv => right; left; simp [step, resetToIdle, producedOf]

/-!  ## Claims -/

/-- C1: for a session running with effective start `t0`, pausing at `t1` and
resuming at `t2` (with `t0 ≤ t1 ≤ t2 ≤ t3`) sets the effective start to
`t0 + (t2 − t1)`, so the elapsed duration reported by `finishWork` at `t3`
is the wall-clock span minus the paused time; and over any list of
pause/resume cycles the effective start is shifted by the total paused time,
so the reported elapsed duration is the wall-clock span minus the total time
spent paused. -/
theorem c1_resume_excises_paused_time :
    ∀ (k : KioskState) (opId opName : String) (wo : WorkOrder) (t0 : Int) (n : Nat),
      k.state = .running opId opName wo t0 n →
      (∀ t1 t2 t3 : Int, t0 ≤ t1 → t1 ≤ t2 → t2 ≤ t3 →
        (resume t2 (pause .«break» t1 k)).state
          = .running opId opName wo (t0 + (t2 - t1)) n ∧
        ((finishWork t3 (resume t2 (pause .«break» t1 k))).1.map FinishSummary.elapsedMs)
          = some ((t3 - t0) - (t2 - t1))) ∧
      (∀ (cs : List (Int × Int)) (t3 : Int),
        (applyCycles cs k).state = .running opId opName wo (t0 + pausedTotal cs) n ∧
        ((finishWork t3 (applyCycles cs k)).1.map FinishSummary.elapsedMs)
          = some ((t3 - t0) - pausedTotal cs)) := by
  intro k opId opName wo t0 n hst
  constructor
  · intro t1 t2 t3 _ _ _
    have h1 : (resume t2 (pause .«break» t1 k)).state
        = .running opId opName wo (t0 + (t2 - t1)) n := by
      simp [pause, resume, hst]
    refine ⟨h1, ?_⟩
    simp only [finishWork, h1, Option.map_some']
    congr 1
    ring
  · intro cs t3
    have h1 := applyCycles_state cs k opId opName wo t0 n hst
    refine ⟨h1, ?_⟩
    simp only [finishWork, h1, Option.map_some']
    congr 1
    ring

/-- Witness for C1 at the spec §8 scenario shape: start at 0, pause at 10,
resume at 15, finish at 20 — the effective start becomes 5 and the reported
elapsed time is 15, i.e. 20 minus the 5 paused; likewise through the
cycle-list form. -/
theorem c1_witness :
    kRun.state = .running ("op-1") ("Ahmet") wo1 0 5 ∧
    ((resume 15 (pause .«break» 10 kRun)).state
        = .running ("op-1") ("Ahmet") wo1 (0 + (15 - 10)) 5 ∧
      ((finishWork 20 (resume 15 (pause .«break» 10 kRun))).1.map FinishSummary.elapsedMs)
        = some ((20 - 0) - (15 - 10))) ∧
    ((applyCycles [(10, 15)] kRun).state
        = .running ("op-1") ("Ahmet") wo1 (0 + pausedTotal [(10, 15)]) 5 ∧
      ((finishWork 20 (applyCycles [(10, 15)] kRun)).1.map FinishSummary.elapsedMs)
        = some ((20 - 0) - pausedTotal [(10, 15)])) :=
  ⟨rfl,
   (c1_resume_excises_paused_time kRun ("op-1") ("Ahmet") wo1 0 5 rfl).1 10 15 20
     (by decide) (by decide) (by decide),
   (c1_resume_excises_paused_time kRun ("op-1") ("Ahmet") wo1 0 5 rfl).2 [(10, 15)] 20⟩

/-- C2 counterexample: with the session `running` and the code `ahmet` in the
buffer, the keyboard terminator (`onRFIDEnter`) is not a no-op — it jumps the
session to `authenticated`, destroying the running session, because
`loginWithCode`/`onRFIDEnter` have no phase guard. -/
theorem c2_counterexample :
    kRun.state = .running ("op-1") ("Ahmet") wo1 0 5 ∧
    (onRFIDEnter kRun).state = .authenticated ("op-1") ("Ahmet") ∧
    (onRFIDEnter kRun).state ≠ kRun.state := by
  refine ⟨rfl, ?_, ?_⟩ <;> decide

/-- C2 (amended): authentication is applied with no phase guard.  Whenever the
entered code resolves to an identity, both the keyboard path (`onRFIDEnter`)
and the decoded-barcode path (`loginWithCode`) move the session to
`authenticated` from any phase, clearing the buffer; only an unresolvable
(empty-trimmed) code leaves the session unchanged, with the buffer still
cleared. -/
theorem c2_amended_authenticate_unguarded :
    ∀ (k : KioskState),
      (demoLookupOperator k.rfidBuffer = none →
        onRFIDEnter k = { k with rfidBuffer := "" }) ∧
      (∀ op, demoLookupOperator k.rfidBuffer = some op →
        onRFIDEnter k = { k with rfidBuffer := "", state := .authenticated op.id op.name }) ∧
      (∀ code op, demoLookupOperator code = some op →
        loginWithCode code k
          = { k with rfidBuffer := "", state := .authenticated op.id op.name }) := by
  intro k
  refine ⟨?_, ?_, ?_⟩
  · intro h; simp [onRFIDEnter, h]
  · intro op h; simp [onRFIDEnter, h]
  · intro code op h; simp [loginWithCode, h]

/-- Witness for C2's amended statement: the running-session fixture. -/
theorem c2_amended_witness :
    onRFIDEnter kRun = { kRun with rfidBuffer := "", state := .authenticated ("op-1") ("Ahmet") } ∧
    loginWithCode ("lider") kRun
      = { kRun with rfidBuffer := "", state := .authenticated ("op-2") ("Lider") } :=
  ⟨(c2_amended_authenticate_unguarded kRun).2.1 { id := ("op-1"), name := ("Ahmet") } (by decide),
   (c2_amended_authenticate_unguarded kRun).2.2 ("lider") { id := ("op-2"), name := ("Lider") }
     (by decide)⟩

/-- C3: evaluation at the failing input.  In an environment where the camera is
acquired but `BarcodeDetector` is missing, `openScanner` throws after storing
the stream; the catch only records `scanError`, so the stream handle stays
open (tracks never stopped) — the camera is left open on this exit path.  By
contrast the successful-capture path does tear everything down before the
code reaches authentication, as the claim demands. -/
theorem c3_failed_open_leaves_camera_open :
    ((openScanner envNoDetector kioskInit).scanner.stream = some 0 ∧
      (openScanner envNoDetector kioskInit).scanner.openStreams = [0] ∧
      (openScanner envNoDetector kioskInit).scanner.rafPending = false ∧
      (openScanner envNoDetector kioskInit).scanner.scanOpen = true ∧
      (openScanner envNoDetector kioskInit).scanner.scanError
        = some (("BarcodeDetector desteklenmiyor. (Android Chrome güncel olmalı)"))) ∧
    ((scanLoopStep (some ("ahmet")) (openScanner envGood kioskInit)).scanner.stream = none ∧
      (scanLoopStep (some ("ahmet")) (openScanner envGood kioskInit)).scanner.rafPending = false ∧
      (scanLoopStep (some ("ahmet")) (openScanner envGood kioskInit)).scanner.openStreams = [] ∧
      (scanLoopStep (some ("ahmet")) (openScanner envGood kioskInit)).state
        = .authenticated ("op-1") ("Ahmet")) := by
  refine ⟨⟨?_, ?_, ?_, ?_, ?_⟩, ?_, ?_, ?_, ?_⟩ <;> decide

/-- C4 counterexample: with a capture already active (one open stream, handle
0), a second `openScanner` is not a no-op and does not stop the old stream's
tracks first — afterwards two stream handles are open, the old one leaked. -/
theorem c4_counterexample :
    (openScanner envGood kioskInit).scanner.stream = some 0 ∧
    (openScanner envGood kioskInit).scanner.openStreams = [0] ∧
    openScanner envGood (openScanner envGood kioskInit) ≠ openScanner envGood kioskInit ∧
    (openScanner envGood (openScanner envGood kioskInit)).scanner.openStreams = [0, 1] ∧
    (openScanner envGood (openScanner envGood kioskInit)).scanner.stream = some 1 := by
  refine ⟨?_, ?_, ?_, ?_, ?_⟩ <;> decide

/-- C4 (amended): starting a new visual capture is unguarded.  In a fully
capable environment `openScanner` always acquires a fresh stream, overwrites
the stored handle with it and schedules sampling, leaving every previously
open stream in the open-stream ledger — the prior handle is not stopped and
is leaked, so two camera streams can be open at once.  (The full-screen
scanner modal keeps this unreachable through the UI.) -/
theorem c4_amended_open_replaces_without_stopping :
    ∀ (k : KioskState) (env : ScanEnv),
      env.hasMediaDevices = true → env.cameraOk = true → env.videoPresent = true →
      env.hasDetector = true →
      openScanner env k =
        { k with scanner :=
          { rafPending := true,
            stream := some k.scanner.nextHandle,
            openStreams := k.scanner.openStreams ++ [k.scanner.nextHandle],
            scanOpen := true,
            scanError := none,
            nextHandle := k.scanner.nextHandle + 1 } } := by
  intro k env h1 h2 h3 h4
  simp [openScanner, h1, h2, h3, h4]

/-- Witness for C4's amended statement: the second open at the
already-capturing state. -/
theorem c4_amended_witness :
    openScanner envGood (openScanner envGood kioskInit) =
      { openScanner envGood kioskInit with scanner :=
        { rafPending := true,
          stream := some (openScanner envGood kioskInit).scanner.nextHandle,
          openStreams := (openScanner envGood kioskInit).scanner.openStreams
            ++ [(openScanner envGood kioskInit).scanner.nextHandle],
          scanOpen := true,
          scanError := none,
          nextHandle := (openScanner envGood kioskInit).scanner.nextHandle + 1 } } :=
  c4_amended_open_replaces_without_stopping (openScanner envGood kioskInit) envGood
    rfl rfl rfl rfl

/-- C5: `finishWork` is a no-op returning no summary outside `running`/`paused`;
from `running` it reports elapsed `now − startTs`, from `paused` elapsed
`pauseTs − startTs`, with the rate taken from `runningInfo` at the same
instant — whose elapsed component equals the summary's `elapsedMs`, i.e. the
rate is derived from the same end time and the produced count — then it
unconditionally resets to `idle` (for any produced count, including 0); and
the `HH:MM:SS` rendering of the summary clamps negative spans to zero. -/
theorem c5_finish_semantics :
    ∀ (now : Int) (k : KioskState),
      (k.state.isRunning = false → k.state.isPaused = false →
        finishWork now k = (none, k)) ∧
      (∀ opId opName wo s n, k.state = .running opId opName wo s n →
        finishWork now k =
          (some { opName := opName, woCode := wo.wo, produced := n,
                  elapsedMs := now - s, elapsedHMS := formatHMS (now - s),
                  pph := (runningInfo now k.state).2,
                  pphRounded := jsRound ((runningInfo now k.state).2) },
           resetToIdle k) ∧
        (runningInfo now k.state).1 = now - s ∧
        (finishWork now k).2.state = .idle) ∧
      (∀ opId opName wo s n r p, k.state = .paused opId opName wo s n r p →
        finishWork now k =
          (some { opName := opName, woCode := wo.wo, produced := n,
                  elapsedMs := p - s, elapsedHMS := formatHMS (p - s),
                  pph := (runningInfo now k.state).2,
                  pphRounded := jsRound ((runningInfo now k.state).2) },
           resetToIdle k) ∧
        (runningInfo now k.state).1 = p - s ∧
        (finishWork now k).2.state = .idle) ∧
      (∀ ms : Int, formatHMS ms = formatHMS (max 0 ms)) := by
  intro now k
  refine ⟨?_, ?_, ?_, fun ms => formatHMS_clamp ms⟩
  · intro h1 h2
    cases hk : k.state <;>
      simp_all [finishWork, SessionState.isRunning, SessionState.isPaused]
  · intro opId opName wo s n h
    refine ⟨?_, ?_, ?_⟩
    · simp [finishWork, h]
    · simp [runningInfo, h]
    · simp [finishWork, h, resetToIdle]
  · intro opId opName wo s n r p h
    refine ⟨?_, ?_, ?_⟩
    · simp [finishWork, h]
    · simp [runningInfo, h]
    · simp [finishWork, h, resetToIdle]

/-- Witness for C5: the zero-output paused fixture (produced = 0, paused at the
start instant) finishes into `idle` with elapsed 0, and a running instance
reports `now − startTs`. -/
theorem c5_witness :
    (finishWork 50 kPaused0 =
      (some { opName := ("Ahmet"), woCode := ("WO-1001"), produced := 0,
              elapsedMs := 0 - 0, elapsedHMS := formatHMS (0 - 0),
              pph := (runningInfo 50 kPaused0.state).2,
              pphRounded := jsRound ((runningInfo 50 kPaused0.state).2) },
       resetToIdle kPaused0) ∧
      (runningInfo 50 kPaused0.state).1 = 0 - 0 ∧
      (finishWork 50 kPaused0).2.state = .idle) ∧
    (finishWork 7 kRun =
      (some { opName := ("Ahmet"), woCode := ("WO-1001"), produced := 5,
              elapsedMs := 7 - 0, elapsedHMS := formatHMS (7 - 0),
              pph := (runningInfo 7 kRun.state).2,
              pphRounded := jsRound ((runningInfo 7 kRun.state).2) },
       resetToIdle kRun) ∧
      (runningInfo 7 kRun.state).1 = 7 - 0 ∧
      (finishWork 7 kRun).2.state = .idle) ∧
    formatHMS (-1234) = formatHMS (max 0 (-1234)) :=
  ⟨(c5_finish_semantics 50 kPaused0).2.2.1 ("op-1") ("Ahmet") wo1 0 0 .fault 0 rfl,
   (c5_finish_semantics 7 kRun).2.1 ("op-1") ("Ahmet") wo1 0 5 rfl,
   (c5_finish_semantics 0 kioskInit).2.2.2 (-1234)⟩

/-- C6: for `running` and `paused` snapshots the rate is `produced / hours`
exactly when `hours = elapsed / 3600000` is strictly positive and exactly 0
when `hours ≤ 0` (in particular at elapsed 0); outside those phases
`runningInfo` is `(0, 0)`.  The rate is a total rational-valued function of
the snapshot and the as-of time, so no NaN/Infinity value exists for any
input. -/
theorem c6_rate_guarded :
    ∀ (now : Int) (st : SessionState),
      (∀ opId opName wo s n, st = .running opId opName wo s n →
        ((0 : ℚ) < ((now - s : Int) : ℚ) / 3600000 →
          (runningInfo now st).2 = (n : ℚ) / (((now - s : Int) : ℚ) / 3600000)) ∧
        (((now - s : Int) : ℚ) / 3600000 ≤ 0 → (runningInfo now st).2 = 0)) ∧
      (∀ opId opName wo s n r p, st = .paused opId opName wo s n r p →
        ((0 : ℚ) < ((p - s : Int) : ℚ) / 3600000 →
          (runningInfo now st).2 = (n : ℚ) / (((p - s : Int) : ℚ) / 3600000)) ∧
        (((p - s : Int) : ℚ) / 3600000 ≤ 0 → (runningInfo now st).2 = 0)) ∧
      (st.isRunning = false → st.isPaused = false → runningInfo now st = (0, 0)) := by
  intro now st
  refine ⟨?_, ?_, ?_⟩
  · intro opId opName wo s n h
    constructor
    · intro hpos
      simp only [runningInfo, h]
      rw [if_pos hpos]
    · intro hle
      simp only [runningInfo, h]
      rw [if_neg (not_lt.mpr hle)]
  · intro opId opName wo s n r p h
    constructor
    · intro hpos
      simp only [runningInfo, h]
      rw [if_pos hpos]
    · intro hle
      simp only [runningInfo, h]
      rw [if_neg (not_lt.mpr hle)]
  · intro h1 h2
    cases hk : st <;>
      simp_all [runningInfo, SessionState.isRunning, SessionState.isPaused]

/-- Witness for C6: at elapsed 0 (the paused-at-start fixture) the rate is
exactly 0, and outside running/paused `runningInfo` is `(0, 0)`. -/
theorem c6_witness :
    (runningInfo 50 kPaused0.state).2 = 0 ∧ runningInfo 3 SessionState.idle = (0, 0) :=
  ⟨((c6_rate_guarded 50 kPaused0.state).2.1 ("op-1") ("Ahmet") wo1 0 0 .fault 0 rfl).2
     (by simp),
   (c6_rate_guarded 3 SessionState.idle).2.2 rfl rfl⟩

/-- C7: from any component state (hence any phase), `resetToIdle` yields the
`idle` phase with no operator, work order, selection or buffer residue, with
the sampling frame cancelled, the stream ref cleared and the modal closed;
and when the open-stream ledger holds exactly the currently referenced stream
(the single-capture discipline every UI-reachable state satisfies), every
open camera stream is stopped. -/
theorem c7_reset_clears_everything :
    ∀ k : KioskState,
      (resetToIdle k).state = .idle ∧
      (resetToIdle k).rfidBuffer = "" ∧
      (resetToIdle k).selectedWO = none ∧
      (resetToIdle k).scanner.rafPending = false ∧
      (resetToIdle k).scanner.stream = none ∧
      (resetToIdle k).scanner.scanOpen = false ∧
      (k.scanner.openStreams = k.scanner.stream.toList →
        (resetToIdle k).scanner.openStreams = []) := by
  intro k
  refine ⟨rfl, rfl, rfl, rfl, rfl, rfl, ?_⟩
  intro h
  cases hs : k.scanner.stream with
  | none =>
    rw [hs] at h
    simp only [Option.toList_none] at h
    simp [resetToIdle, ScannerState.stop, hs, h]
  | some hd =>
    rw [hs] at h
    simp only [Option.toList_some] at h
    simp [resetToIdle, ScannerState.stop, hs, h]

/-- Witness for C7: resetting while a capture is live (one open stream) closes
everything. -/
theorem c7_witness :
    (resetToIdle (openScanner envGood kRun)).state = .idle ∧
    (resetToIdle (openScanner envGood kRun)).rfidBuffer = "" ∧
    (resetToIdle (openScanner envGood kRun)).selectedWO = none ∧
    (resetToIdle (openScanner envGood kRun)).scanner.rafPending = false ∧
    (resetToIdle (openScanner envGood kRun)).scanner.stream = none ∧
    (resetToIdle (openScanner envGood kRun)).scanner.scanOpen = false ∧
    (resetToIdle (openScanner envGood kRun)).scanner.openStreams = [] := by
  have h := c7_reset_clears_everything (openScanner envGood kRun)
  exact ⟨h.1, h.2.1, h.2.2.1, h.2.2.2.1, h.2.2.2.2.1, h.2.2.2.2.2.1,
    h.2.2.2.2.2.2 (by decide)⟩

/-- C8: `startWork` succeeds exactly from `authenticated` with a selected
order, moving to `running` with `startTs = now`, `produced = 0`, the
authenticated operator and the selected order; with no selection, or from any
other phase, the whole component state is unchanged. -/
theorem c8_start_only_from_authenticated :
    ∀ (now : Int) (k : KioskState),
      (∀ opId opName wo, k.state = .authenticated opId opName → k.selectedWO = some wo →
        startWork now k = { k with state := .running opId opName wo now 0 }) ∧
      (k.selectedWO = none → startWork now k = k) ∧
      (k.state.isAuthenticated = false → startWork now k = k) := by
  intro now k
  refine ⟨?_, ?_, ?_⟩
  · intro opId opName wo h hw
    simp [startWork, h, hw]
  · intro h
    simp [startWork, h]
  · intro h
    cases hw : k.selectedWO with
    | none => simp [startWork, hw]
    | some wo =>
      cases hk : k.state <;> simp_all [startWork, hw, SessionState.isAuthenticated]

/-- Witness for C8: starting from the authenticated fixture at instant 100. -/
theorem c8_witness :
    startWork 100 kAuth = { kAuth with state := .running ("op-1") ("Ahmet") wo1 100 0 } ∧
    startWork 100 kRun = kRun :=
  ⟨(c8_start_only_from_authenticated 100 kAuth).1 ("op-1") ("Ahmet") wo1 rfl rfl,
   (c8_start_only_from_authenticated 100 kRun).2.2 rfl⟩

/-- C9: `addPiece` increments `produced` by exactly one from `running`,
touching nothing else, and is the identity from every other phase; and along
any event step the produced count never decreases, a count appearing where
none existed is 0 and arises only from a `start` event — hence over every
event sequence the count is non-decreasing and resets to 0 only on start. -/
theorem c9_addPiece_and_monotonicity :
    (∀ (k : KioskState) (opId opName : String) (wo : WorkOrder) (s : Int) (p : Nat),
      k.state = .running opId opName wo s p →
      addPiece k = { k with state := .running opId opName wo s (p + 1) }) ∧
    (∀ k : KioskState, k.state.isRunning = false → addPiece k = k) ∧
    (∀ (e : KioskEvent) (k : KioskState) (n m : Nat),
      producedOf k.state = some n → producedOf (step e k).state = some m → n ≤ m) ∧
    (∀ (e : KioskEvent) (k : KioskState) (m : Nat),
      producedOf k.state = none → producedOf (step e k).state = some m →
      m = 0 ∧ ∃ now, e = .start now) := by
  refine ⟨?_, ?_, ?_, ?_⟩
  · intro k opId opName wo s p h
    simp [addPiece, h]
  · intro k h
    cases hk : k.state <;> simp_all [addPiece, SessionState.isRunning]
  · intro e k n m hn hm
    rcases producedOf_step e k with h | h | ⟨h1, _, _⟩ | ⟨p, h1, h2⟩
    · rw [h, hn] at hm
      injection hm with h3
      omega
    · rw [h] at hm
      cases hm
    · rw [h1] at hn
      cases hn
    · rw [h1] at hn
      rw [h2] at hm
      have : p = n := by injection hn
      have : m = p + 1 := by injection hm with h3; omega
      omega
  · intro e k m hn hm
    rcases producedOf_step e k with h | h | ⟨_, h2, h3⟩ | ⟨p, h1, _⟩
    · rw [h, hn] at hm
      cases hm
    · rw [h] at hm
      cases hm
    · rw [h2] at hm
      have : m = 0 := by injection hm with h4; omega
      exact ⟨this, h3⟩
    · rw [h1] at hn
      cases hn

/-- Witness for C9: one increment on the running fixture, a no-op on the
authenticated fixture, per-step monotonicity at the increment step, and a
fresh count 0 created by `start`. -/
theorem c9_witness :
    addPiece kRun = { kRun with state := .running ("op-1") ("Ahmet") wo1 0 6 } ∧
    addPiece kAuth = kAuth ∧
    (5 : Nat) ≤ 6 ∧
    ((0 : Nat) = 0 ∧ ∃ now, KioskEvent.start 100 = .start now) :=
  ⟨c9_addPiece_and_monotonicity.1 kRun ("op-1") ("Ahmet") wo1 0 5 rfl,
   c9_addPiece_and_monotonicity.2.1 kAuth rfl,
   c9_addPiece_and_monotonicity.2.2.1 .piece kRun 5 6 rfl (by decide),
   c9_addPiece_and_monotonicity.2.2.2 (.start 100) kAuth 0 rfl (by decide)⟩

/-- C10: on the terminator, if the buffer trims to empty the event is ignored —
the session state (in particular the phase) is unchanged and the buffer is
cleared; if it trims non-empty the lookup resolves an identity and the
handler emits it into authentication, clearing the buffer. -/
theorem c10_empty_terminator_ignored :
    ∀ k : KioskState,
      (jsTrim k.rfidBuffer = "" →
        onRFIDEnter k = { k with rfidBuffer := "" } ∧
        (onRFIDEnter k).state = k.state) ∧
      (jsTrim k.rfidBuffer ≠ "" →
        ∃ op, demoLookupOperator k.rfidBuffer = some op ∧
          onRFIDEnter k = { k with rfidBuffer := "", state := .authenticated op.id op.name }) := by
  intro k
  constructor
  · intro h
    have hl : demoLookupOperator k.rfidBuffer = none := by
      simp [demoLookupOperator, h]
    constructor
    · simp [onRFIDEnter, hl]
    · simp [onRFIDEnter, hl]
  · intro h
    have hl : ∃ op, demoLookupOperator k.rfidBuffer = some op := by
      simp only [demoLookupOperator]
      rw [if_neg h]
      split_ifs <;> exact ⟨_, rfl⟩
    obtain ⟨op, hop⟩ := hl
    exact ⟨op, hop, by simp [onRFIDEnter, hop]⟩

/-- Witness for C10: a whitespace-only buffer from `idle` stays `idle` with the
buffer cleared; a resolvable buffer emits its identity. -/
theorem c10_witness :
    (onRFIDEnter kSpaces = { kSpaces with rfidBuffer := "" } ∧
      (onRFIDEnter kSpaces).state = kSpaces.state) ∧
    (∃ op, demoLookupOperator kRun.rfidBuffer = some op ∧
      onRFIDEnter kRun = { kRun with rfidBuffer := "", state := .authenticated op.id op.name }) :=
  ⟨(c10_empty_terminator_ignored kSpaces).1 (by decide),
   (c10_empty_terminator_ignored kRun).2 (by decide)⟩
